import Mathlib

/-!
Verification of src/action.py (champ-oss/action-update-app) against its
natural-language specification.

The file shallowly embeds the pure content of each Python function:
 - find_replace_file_pattern (lines 81-94): the sed substitution
   s/SEARCH:.*/SEARCH:REPLACE SUFFIX/g, modelled line by line on List Char;
 - create_github_jwt (lines 17-34): the JWT payload and signing parameters;
 - get_github_access_token (lines 37-56): one POST, raise_for_status, json token;
 - update_file (lines 97-120): the tenacity-retried read-sha-then-write cycle,
   modelled over an oracle for the remote repository, producing a full trace of
   attempts (what was pulled, which sha was fetched, which content was written);
 - main (lines 123-159): the orchestration, including the fact that line 155
   passes 8 positional arguments to the 7-parameter update_file.
-/

namespace ActionUpdateApp

/- ## Text transform: find_replace_file_pattern (src/action.py lines 81-94)

The Python runs sed -i -e with the expression s/SEARCH:.*/SEARCH:REPLACE SUFFIX/g
on the file.  sed works line by line; the regex anchors nowhere, so it matches
the FIRST occurrence of SEARCH followed by a colon anywhere in the line and the
`.*` then consumes the rest of the line, so the whole tail from that occurrence
is replaced by SEARCH, the colon, REPLACE and SUFFIX.  The /g flag has no
further effect because `.*` reaches the end of the line.  We model file content
as a List Char and the search, replace and suffix values as literal strings
(free of sed metacharacters). -/

/-- Index of the first occurrence of pat inside s, if any (leftmost match,
as sed finds it). -/
def firstOccur (pat : List Char) (s : List Char) : Option Nat :=
  match s with
  | [] => if List.isPrefixOf pat [] then some 0 else none
  | _ :: rest =>
    if List.isPrefixOf pat s then some 0
    else (firstOccur pat rest).map (· + 1)

/-- One line of the sed pass: if SEARCH followed by a colon occurs in the line,
everything from the first occurrence to the end of the line is replaced by
SEARCH, colon, REPLACE, SUFFIX; otherwise the line is unchanged. -/
def sedLine (search repl sfx line : List Char) : List Char :=
  match firstOccur (search ++ [':']) line with
  | none => line
  | some i => line.take i ++ search ++ [':'] ++ repl ++ sfx

/-- Split a character stream into lines at newline characters (sed's line
reading; a trailing newline yields a final empty line that rejoins to the
same trailing newline). -/
def splitNl : List Char → List (List Char)
  | [] => [[]]
  | c :: rest =>
    if c = '\n' then [] :: splitNl rest
    else
      match splitNl rest with
      | [] => [[c]]
      | l :: ls => (c :: l) :: ls

/-- Rejoin lines with newline characters (inverse of splitNl). -/
def joinNl : List (List Char) → List Char
  | [] => []
  | [l] => l
  | l :: l2 :: ls => l ++ '\n' :: joinNl (l2 :: ls)

/-- Whole-file effect of the sed invocation in find_replace_file_pattern. -/
def sedFile (search repl sfx content : List Char) : List Char :=
  joinNl ((splitNl content).map (sedLine search repl sfx))

/-- find_replace_file_pattern (src/action.py lines 81-94), modelled as the
pure transformation the sed command applies to the file's content.  Parameter
order follows the source: search_string, replace_string, the file (here its
content), suffix. -/
def find_replace_file_pattern (search_string replace_string content sfx : String) : String :=
  String.mk (sedFile search_string.toList replace_string.toList sfx.toList content.toList)

/- ## Credential broker: create_github_jwt (src/action.py lines 17-34) -/

/-- A value stored in the JWT payload dict. -/
inductive JwtValue
  | nat (n : Nat)
  | str (s : String)
deriving DecidableEq

/-- The payload dict built at src/action.py lines 26-30:
payload = { iat: time_now, exp: time_now + (10 * 60), iss: app_id }. -/
def jwtPayload (app_id : String) (time_now : Nat) : List (String × JwtValue) :=
  [("iat", JwtValue.nat time_now),
   ("exp", JwtValue.nat (time_now + 10 * 60)),
   ("iss", JwtValue.str app_id)]

/-- The observable inputs of jwt.encode: the claims, the signing key and the
algorithm name.  The signature bytes themselves are opaque; what the program
determines is exactly these three inputs. -/
structure SignedJwt where
  claims : List (String × JwtValue)
  signingKey : String
  algorithm : String

/-- jwt.encode(payload, private_key, algorithm) as the record of its inputs. -/
def jwtEncode (claims : List (String × JwtValue)) (key : String) (alg : String) : SignedJwt :=
  { claims := claims, signingKey := key, algorithm := alg }

/-- create_github_jwt (src/action.py lines 17-34).  time_now models
int(time.time()); pem_contents models the text read from the pem file at
lines 31-32. -/
def create_github_jwt (app_id : String) (time_now : Nat) (pem_contents : String) : SignedJwt :=
  jwtEncode (jwtPayload app_id time_now) pem_contents "RS256"

/- ## Token minting: get_github_access_token (src/action.py lines 37-56) -/

/-- Python-level failures observable in this program. -/
inductive PyError
  | httpError   -- requests.HTTPError raised by response.raise_for_status()
  | keyError    -- response.json() has no token entry
  | typeError   -- calling a function with the wrong number of positional args
  | gitError    -- a failure inside git clone
  | retryError  -- tenacity RetryError after the attempt ceiling is exhausted
deriving DecidableEq

/-- The response the token endpoint returns: its HTTP status code and the
token field of its JSON body, when present. -/
structure HttpResponse where
  statusCode : Nat
  tokenField : Option String

/-- requests.Response.raise_for_status (called at src/action.py line 54):
raises HTTPError exactly when 400 <= status_code < 600; any other status,
including 3xx, does not raise. -/
def raise_for_status (r : HttpResponse) : Except PyError Unit :=
  if 400 ≤ r.statusCode ∧ r.statusCode < 600 then Except.error PyError.httpError
  else Except.ok ()

/-- The observable outcome of get_github_access_token: how many POST requests
it issued and the returned token or the raised error. -/
structure TokenResult where
  postsMade : Nat
  result : Except PyError String

/-- get_github_access_token (src/action.py lines 37-56): build the JWT, issue
exactly one POST to the access_tokens endpoint (no loop, no decorator), call
raise_for_status on the response, then read the token field of the JSON body. -/
def get_github_access_token (resp : HttpResponse) : TokenResult :=
  { postsMade := 1
    result :=
      match raise_for_status resp with
      | Except.error e => Except.error e
      | Except.ok _ =>
        match resp.tokenField with
        | some t => Except.ok t
        | none => Except.error PyError.keyError }

/- ## update_file (src/action.py lines 97-120) and its tenacity retry policy

The decorator at line 97 is
    @retry(wait=wait_fixed(4), stop=stop_after_attempt(15))
with no retry predicate, so tenacity's default applies: EVERY exception raised
by the body is retried, with a fixed 4 second wait between consecutive
attempts, until 15 attempts have been made; after the 15th failure the
failure propagates to the caller (tenacity wraps the last exception in
RetryError; we surface the last error itself).

The body of one attempt (lines 112-120) does:
    git_pull(get_repo)                                    -- refresh the clone
    sha = repo.get_contents(file_path, ref=branch).sha    -- fresh remote sha
    repo.update_file(..., content=content, sha=sha, ...)  -- write
The content parameter is bound once by the caller; the body never re-reads or
re-transforms it, so every attempt writes the same content value. -/

/-- Remote errors the GitHub client can raise, as classified by the spec. -/
inductive GhError
  | conflict
  | notFound
  | authError
  | transientErr
deriving DecidableEq

/-- wait_fixed(4) at src/action.py line 97. -/
def update_file_wait_seconds : Nat := 4

/-- stop_after_attempt(15) at src/action.py line 97. -/
def update_file_stop_attempts : Nat := 15

/-- Oracle for the remote repository as seen across retry attempts, indexed by
the attempt number (1-based): the content and sha that repo.get_contents
returns on that attempt, and the outcome of repo.update_file given the content
and sha the program presents. -/
structure RemoteEnv where
  fileContent : Nat → String
  fileSha : Nat → String
  updateResult : Nat → String → String → Except GhError String

/-- Trace of one attempt of update_file's body. -/
structure Attempt where
  index : Nat
  pulled : Bool
  waitedBefore : Nat
  shaUsed : String
  contentWritten : String
  outcome : Except GhError String

/-- One execution of update_file's body (src/action.py lines 112-120) on
attempt n: git_pull runs, the sha is freshly fetched from the remote, and the
write sends the caller-supplied content parameter with that sha. -/
def update_file_once (env : RemoteEnv) (content : String) (n : Nat) : Attempt :=
  { index := n
    pulled := true
    waitedBefore := if n = 1 then 0 else update_file_wait_seconds
    shaUsed := env.fileSha n
    contentWritten := content
    outcome := env.updateResult n content (env.fileSha n) }

/-- The tenacity loop: run the body on attempt n; on success stop; on any
exception, if fuel remains, wait and run attempt n+1.  Returns the list of
attempts made and the final outcome (on exhaustion, the last error). -/
def retryGo (env : RemoteEnv) (content : String) : Nat → Nat → List Attempt × Except GhError String
  | n, 0 => ([update_file_once env content n], (update_file_once env content n).outcome)
  | n, fuel + 1 =>
    match (update_file_once env content n).outcome with
    | Except.ok s => ([update_file_once env content n], Except.ok s)
    | Except.error _ =>
      (update_file_once env content n :: (retryGo env content (n + 1) fuel).1,
        (retryGo env content (n + 1) fuel).2)

/-- update_file as decorated (src/action.py lines 97-120): the body under the
tenacity retry policy, starting at attempt 1 with at most 15 attempts. -/
def update_file (env : RemoteEnv) (content : String) : List Attempt × Except GhError String :=
  retryGo env content 1 (update_file_stop_attempts - 1)

/- ## main (src/action.py lines 123-159) -/

/-- The positional parameters of a Python function and how many trailing ones
carry defaults. -/
structure PySignature where
  positionalParams : List String
  defaultCount : Nat

/-- The signature of update_file (src/action.py lines 98-99): seven
parameters, the last one (content) with a default. -/
def update_file_signature : PySignature :=
  { positionalParams :=
      ["repo", "branch_name", "file_path", "search_string", "gh_sha", "get_repo", "content"]
    defaultCount := 1 }

/-- The eight positional arguments main passes at src/action.py line 155:
update_file(repo, branch_name, file_pattern, search_string, gh_sha,
git_local_directory, get_repo, content). -/
def main_update_file_args : List String :=
  ["repo", "branch_name", "file_pattern", "search_string", "gh_sha",
   "git_local_directory", "get_repo", "content"]

/-- Python positional-argument binding for a function with no *args and no
keyword-only parameters: a call with argCount positional arguments binds
exactly when required-parameter count <= argCount <= parameter count;
otherwise the call raises TypeError before the body runs. -/
def bindsPositional (sig : PySignature) (argCount : Nat) : Bool :=
  decide (sig.positionalParams.length - sig.defaultCount ≤ argCount ∧
    argCount ≤ sig.positionalParams.length)

/-- Environment of one run of main: the token endpoint's response, whether the
clone succeeds, the branch head before the run, the FILE_PATH_LIST paired with
whether each file exists locally after the sed pass, the local file contents
read at line 153-154, and the remote oracle for update_file. -/
structure MainEnv where
  tokenResp : HttpResponse
  cloneOk : Bool
  initialHead : String
  files : List (String × Bool)
  localContent : String → String
  remote : RemoteEnv

/-- Observable final state of one run of main: whether private.pem is on disk
when the process terminates, the branch head, the commits pushed to the
branch (in order), and the process outcome. -/
structure MainResult where
  pemOnDisk : Bool
  branchHead : String
  commits : List String
  outcome : Except PyError Unit

/-- The call at src/action.py line 155, as executed: the tenacity wrapper
accepts any arguments and forwards them to the 7-parameter update_file inside
its attempt loop.  When the positional binding fails (8 arguments), every one
of the 15 attempts raises TypeError before the body runs, and after the
ceiling tenacity raises RetryError; no remote write ever happens.  When the
binding succeeds, the retried body runs against the remote oracle. -/
def main_update_file_call (env : MainEnv) (content : String) : Except PyError String :=
  if bindsPositional update_file_signature main_update_file_args.length then
    match (update_file env.remote content).2 with
    | Except.ok s => Except.ok s
    | Except.error _ => Except.error PyError.retryError
  else
    Except.error PyError.retryError

/-- The per-file loop of main (src/action.py lines 149-157): run sed on the
local file; if it exists, read it and invoke the update call — an exception
there propagates and aborts the loop (and the process); if it does not exist,
print a message and continue with the next file. -/
def runMainLoop (env : MainEnv) : List (String × Bool) → List String × Except PyError Unit
  | [] => ([], Except.ok ())
  | (path, existsLocal) :: rest =>
    if existsLocal then
      match main_update_file_call env (env.localContent path) with
      | Except.ok sha => (sha :: (runMainLoop env rest).1, (runMainLoop env rest).2)
      | Except.error e => ([], Except.error e)
    else
      runMainLoop env rest

/-- main (src/action.py lines 123-159): write the private key to private.pem
(line 138-139, before anything can fail), mint a token (an error propagates),
clone the repository (an error propagates), then loop over FILE_PATH_LIST.
No code path ever deletes private.pem, so it is on disk in every terminal
state.  The branch head advances only through successful repo.update_file
calls, so it ends at the last pushed commit, or where it started if none. -/
def runMain (env : MainEnv) : MainResult :=
  match (get_github_access_token env.tokenResp).result with
  | Except.error e =>
    { pemOnDisk := true, branchHead := env.initialHead, commits := [],
      outcome := Except.error e }
  | Except.ok _ =>
    if env.cloneOk then
      { pemOnDisk := true
        branchHead := ((runMainLoop env env.files).1.getLast?).getD env.initialHead
        commits := (runMainLoop env env.files).1
        outcome := (runMainLoop env env.files).2 }
    else
      { pemOnDisk := true, branchHead := env.initialHead, commits := [],
        outcome := Except.error PyError.gitError }

/- ## Concrete environments used by counterexamples and witnesses -/

/-- A remote oracle that always reports a conflict on write. -/
def envAlwaysConflict : RemoteEnv :=
  { fileContent := fun _ => "key:old"
    fileSha := fun _ => "sha"
    updateResult := fun _ _ _ => Except.error GhError.conflict }

/-- A remote oracle that always reports an authentication error on write. -/
def envAlwaysAuth : RemoteEnv :=
  { fileContent := fun _ => "key:old"
    fileSha := fun _ => "sha"
    updateResult := fun _ _ _ => Except.error GhError.authError }

/-- Remote oracle: NotFound on the first attempt, success afterwards. -/
def envC4 : RemoteEnv :=
  { fileContent := fun _ => "key:old"
    fileSha := fun _ => "sha0"
    updateResult := fun n _ _ =>
      if n = 1 then Except.error GhError.notFound else Except.ok "commit2" }

/-- Remote oracle: a concurrent writer moved the file between attempts — the
content and sha visible on attempt 2 differ from attempt 1; the first write
conflicts, the second succeeds. -/
def envC3 : RemoteEnv :=
  { fileContent := fun n => if n = 1 then "key:a" else "key:b"
    fileSha := fun n => if n = 1 then "sha1" else "sha2"
    updateResult := fun n _ _ =>
      if n = 1 then Except.error GhError.conflict else Except.ok "c2" }

/-- A remote oracle for runs of main (never reached, since the call at line
155 fails to bind). -/
def remoteUnused : RemoteEnv :=
  { fileContent := fun _ => ""
    fileSha := fun _ => ""
    updateResult := fun _ _ _ => Except.error GhError.conflict }

/-- A run of main in which the token is minted, the clone succeeds and one
listed file exists locally after substitution. -/
def envC1 : MainEnv :=
  { tokenResp := { statusCode := 201, tokenField := some "token1" }
    cloneOk := true
    initialHead := "head0"
    files := [("app.yaml", true)]
    localContent := fun _ => "key:v2\n"
    remote := remoteUnused }

/-- A run of main in which the token endpoint rejects the request (401), so
the process dies at line 141, after private.pem was written at line 138. -/
def envC9 : MainEnv :=
  { tokenResp := { statusCode := 401, tokenField := none }
    cloneOk := true
    initialHead := "head0"
    files := []
    localContent := fun _ => ""
    remote := remoteUnused }

/- ## Helper lemmas -/

theorem splitNl_ne_nil (s : List Char) : splitNl s ≠ [] := by
  cases s with
  | nil => simp [splitNl]
  | cons c rest =>
    simp only [splitNl]
    split
    · simp
    · split <;> simp

theorem joinNl_splitNl (s : List Char) : joinNl (splitNl s) = s := by
  induction s with
  | nil => rfl
  | cons c rest ih =>
    obtain ⟨l, ls, hls⟩ : ∃ l ls, splitNl rest = l :: ls := by
      cases h : splitNl rest with
      | nil => exact absurd h (splitNl_ne_nil rest)
      | cons a b => exact ⟨a, b, rfl⟩
    by_cases hc : c = '\n'
    · subst hc
      rw [show splitNl ('\n' :: rest) = [] :: splitNl rest from by simp [splitNl], hls]
      rw [hls] at ih
      simpa [joinNl] using ih
    · rw [show splitNl (c :: rest) = (c :: l) :: ls from by
        simp only [splitNl, if_neg hc, hls]]
      rw [hls] at ih
      cases ls with
      | nil =>
        simp only [joinNl]
        simp only [joinNl] at ih
        rw [ih]
      | cons l2 ls2 =>
        simp only [joinNl] at ih ⊢
        rw [List.cons_append, ih]

theorem map_id_of_mem {α : Type} (l : List α) (f : α → α) (h : ∀ a ∈ l, f a = a) :
    l.map f = l := by
  induction l with
  | nil => rfl
  | cons a t ih =>
    simp only [List.map_cons, h a (by simp)]
    rw [ih (fun b hb => h b (by simp [hb]))]

theorem sedLine_eq (search repl sfx line : List Char) :
    sedLine search repl sfx line =
      match firstOccur (search ++ [':']) line with
      | none => line
      | some i => line.take i ++ search ++ [':'] ++ repl ++ sfx := rfl

theorem retryGo_length (env : RemoteEnv) (content : String) :
    ∀ fuel n, (retryGo env content n fuel).1.length ≤ fuel + 1 := by
  intro fuel
  induction fuel with
  | zero => intro n; simp [retryGo]
  | succ f ih =>
    intro n
    cases h : (update_file_once env content n).outcome with
    | ok s => simp [retryGo, h]
    | error e =>
      have := ih (n + 1)
      simp only [retryGo, h, List.length_cons]
      omega

theorem retryGo_get (env : RemoteEnv) (content : String) :
    ∀ fuel n i a, (retryGo env content n fuel).1[i]? = some a →
      a = update_file_once env content (n + i) := by
  intro fuel
  induction fuel with
  | zero =>
    intro n i a h
    cases i with
    | zero =>
      simp only [retryGo, List.getElem?_cons_zero, Option.some_inj] at h
      exact h.symm
    | succ j =>
      simp [retryGo] at h
  | succ f ih =>
    intro n i a h
    cases hout : (update_file_once env content n).outcome with
    | ok s =>
      simp only [retryGo, hout] at h
      cases i with
      | zero =>
        simp only [List.getElem?_cons_zero, Option.some_inj] at h
        exact h.symm
      | succ j => simp at h
    | error e =>
      simp only [retryGo, hout] at h
      cases i with
      | zero =>
        simp only [List.getElem?_cons_zero, Option.some_inj] at h
        exact h.symm
      | succ j =>
        simp only [List.getElem?_cons_succ] at h
        have e1 : n + 1 + j = n + (j + 1) := by omega
        rw [← e1]
        exact ih (n + 1) j a h

theorem retryGo_error_length (env : RemoteEnv) (content : String) :
    ∀ fuel n e, (retryGo env content n fuel).2 = Except.error e →
      (retryGo env content n fuel).1.length = fuel + 1 := by
  intro fuel
  induction fuel with
  | zero => intro n e _; simp [retryGo]
  | succ f ih =>
    intro n e h
    cases hout : (update_file_once env content n).outcome with
    | ok s => simp [retryGo, hout] at h
    | error e2 =>
      simp only [retryGo, hout] at h ⊢
      simp only [List.length_cons]
      rw [ih (n + 1) e h]

theorem runMainLoop_no_commits (env : MainEnv) :
    ∀ files, (runMainLoop env files).1 = [] := by
  intro files
  induction files with
  | nil => rfl
  | cons f rest ih =>
    obtain ⟨p, ex⟩ := f
    cases ex with
    | false => simpa [runMainLoop] using ih
    | true =>
      have hb : bindsPositional update_file_signature main_update_file_args.length = false := rfl
      simp [runMainLoop, main_update_file_call, hb]

/- ## Claim theorems -/

/-- C1: the claim says the per-file update step can be invoked successfully
and returns the SHA of the new commit.  The code contradicts it: main passes
8 positional arguments to the 7-parameter update_file, so the positional
binding fails, TypeError is raised on every tenacity attempt, and a run in
which a listed file exists terminates in error with no commit ever made. -/
theorem c1_update_call_type_error :
    bindsPositional update_file_signature main_update_file_args.length = false ∧
    main_update_file_args.length = 8 ∧
    update_file_signature.positionalParams.length = 7 ∧
    (runMain envC1).outcome = Except.error PyError.retryError ∧
    (runMain envC1).commits = [] :=
  ⟨rfl, rfl, rfl, rfl, rfl⟩

/-- C2: in every run of main, no commit at all lands on the branch and the
branch head is exactly where it started, so in particular the branch is never
left in a partially-updated multi-file state.  (This holds degenerately: the
8-argument call at line 155 raises TypeError before any remote write, so the
engine never publishes anything.) -/
theorem c2_branch_never_partially_updated (env : MainEnv) :
    (runMain env).commits = [] ∧ (runMain env).branchHead = env.initialHead := by
  cases hres : (get_github_access_token env.tokenResp).result with
  | error e => simp [runMain, hres]
  | ok t =>
    cases hc : env.cloneOk with
    | true => simp [runMain, hres, hc, runMainLoop_no_commits]
    | false => simp [runMain, hres, hc]

/-- C3 counterexample: after a Conflict on attempt 1, the retried attempt 2
re-fetches the sha (sha2, fresh) but writes exactly the content value the
caller memoized before the first attempt — not anything derived from the
remote content visible on attempt 2 — refuting the claim that the file
content is re-obtained before the re-attempted write. -/
theorem c3_counterexample :
    ((update_file envC3 "key:x").1[0]?).map Attempt.contentWritten = some "key:x" ∧
    ((update_file envC3 "key:x").1[1]?).map Attempt.contentWritten = some "key:x" ∧
    ((update_file envC3 "key:x").1[1]?).map Attempt.shaUsed = some "sha2" ∧
    envC3.fileContent 2 ≠ "key:x" :=
  ⟨rfl, rfl, rfl, by decide⟩

/-- C3 amended: every attempt of the retried update re-pulls the clone and
re-fetches the file sha from the remote (the sha used on attempt i+1 is the
one the remote serves on that attempt), but the content written is the
caller-supplied parameter, identical on every attempt; content is never
re-read or re-transformed inside the retry loop. -/
theorem c3_amended (env : RemoteEnv) (content : String) (i : Nat) (a : Attempt)
    (h : (update_file env content).1[i]? = some a) :
    a.pulled = true ∧ a.shaUsed = env.fileSha (1 + i) ∧ a.contentWritten = content := by
  have h' : (retryGo env content 1 (update_file_stop_attempts - 1)).1[i]? = some a := h
  have ha := retryGo_get env content (update_file_stop_attempts - 1) 1 i a h'
  rw [ha]
  exact ⟨rfl, rfl, rfl⟩

/-- C3 witness: instantiating the amended theorem at the two-attempt conflict
run, for the second attempt. -/
theorem c3_amended_witness :
    (⟨2, true, 4, "sha2", "key:x", Except.ok "c2"⟩ : Attempt).pulled = true ∧
    (⟨2, true, 4, "sha2", "key:x", Except.ok "c2"⟩ : Attempt).shaUsed = envC3.fileSha (1 + 1) ∧
    (⟨2, true, 4, "sha2", "key:x", Except.ok "c2"⟩ : Attempt).contentWritten = "key:x" :=
  c3_amended envC3 "key:x" 1 ⟨2, true, 4, "sha2", "key:x", Except.ok "c2"⟩ (by rfl)

/-- C4 counterexample: a NotFound error on the first attempt does not abort —
a second attempt is made (and here succeeds), because the tenacity decorator
at line 97 has no retry predicate and so retries every exception. -/
theorem c4_counterexample :
    ((update_file envC4 "key:new").1[0]?).map Attempt.outcome =
      some (Except.error GhError.notFound) ∧
    (update_file envC4 "key:new").1.length = 2 ∧
    (update_file envC4 "key:new").2 = Except.ok "commit2" :=
  ⟨rfl, rfl, rfl⟩

/-- C4 amended: no error kind aborts the retried update early — whenever the
call finally propagates an error (of any kind: Conflict, Transient, AuthError
or NotFound alike), the full ceiling of 15 attempts was spent first. -/
theorem c4_amended (env : RemoteEnv) (content : String) (e : GhError)
    (h : (update_file env content).2 = Except.error e) :
    (update_file env content).1.length = update_file_stop_attempts := by
  have h' : (retryGo env content 1 (update_file_stop_attempts - 1)).2 = Except.error e := h
  have hl := retryGo_error_length env content (update_file_stop_attempts - 1) 1 e h'
  have e15 : update_file_stop_attempts - 1 + 1 = update_file_stop_attempts := by decide
  rw [← e15]
  exact hl

/-- C4 witness: a remote that always answers AuthError still gets the full 15
attempts before the failure propagates. -/
theorem c4_amended_witness :
    (update_file envAlwaysAuth "x").1.length = update_file_stop_attempts :=
  c4_amended envAlwaysAuth "x" GhError.authError (by rfl)

/-- C5 counterexample: the sed expression is unanchored, so a line that does
NOT begin with the search key is still rewritten when the key occurs later in
the line — refuting the claim that every line not beginning with the key is
left byte-for-byte unchanged. -/
theorem c5_counterexample :
    find_replace_file_pattern "key" "new" "x key:old" "" = "x key:new" ∧
    ("x key:new" : String) ≠ "x key:old" :=
  ⟨rfl, by decide⟩

/-- C5 amended: in every line, the text from the FIRST occurrence of the
search key followed by a colon (anywhere in the line, not only at its start)
to the end of the line is replaced by the key, the colon, the replace value
and the suffix; a line in which the key-colon pattern does not occur is
unchanged; and when it occurs in no line the whole transform is a no-op, not
an error. -/
theorem c5_amended (search repl sfx content : List Char) :
    ((∀ l ∈ splitNl content, firstOccur (search ++ [':']) l = none) →
      sedFile search repl sfx content = content) ∧
    (∀ l, firstOccur (search ++ [':']) l = none → sedLine search repl sfx l = l) ∧
    (∀ l i, firstOccur (search ++ [':']) l = some i →
      sedLine search repl sfx l = l.take i ++ search ++ [':'] ++ repl ++ sfx) := by
  refine ⟨?_, ?_, ?_⟩
  · intro h
    unfold sedFile
    rw [map_id_of_mem _ _ (fun l hl => by rw [sedLine_eq, h l hl])]
    exact joinNl_splitNl content
  · intro l h
    rw [sedLine_eq, h]
  · intro l i h
    rw [sedLine_eq, h]

/-- C5 witness: the no-op case on content without the key, and the rewrite
case on a line where the key occurs mid-line (first occurrence at index 2). -/
theorem c5_amended_witness :
    sedFile ['k'] ['v'] ['"'] ['a', 'b'] = ['a', 'b'] ∧
    sedLine ['k'] ['v'] ['"'] ['x', ' ', 'k', ':', 'z'] =
      (['x', ' ', 'k', ':', 'z'].take 2) ++ ['k'] ++ [':'] ++ ['v'] ++ ['"'] :=
  ⟨(c5_amended ['k'] ['v'] ['"'] ['a', 'b']).1 (by decide),
   (c5_amended ['k'] ['v'] ['"'] ['a', 'b']).2.2 ['x', ' ', 'k', ':', 'z'] 2 (by decide)⟩

/-- C6 counterexample: on content "key: old\n" with replace value "new" and
empty suffix, the transform yields "key:new\n" — with no space after the
colon — not the "key: new\n" the claim states: the space belonged to the
replaced remainder and the sed replacement re-inserts none. -/
theorem c6_counterexample :
    find_replace_file_pattern "key" "new" "key: old\n" "" = "key:new\n" ∧
    ("key: new\n" : String) ≠ "key:new\n" :=
  ⟨rfl, by decide⟩

/-- C6 amended: given file content "key: old\n", search key "key", replace
value "new" and empty suffix, the transform produces exactly "key:new\n". -/
theorem c6_amended :
    find_replace_file_pattern "key" "new" "key: old\n" "" = "key:new\n" := rfl

/-- C7: the signed assertion's payload contains exactly the claims
iss = app id, iat = now and exp = now + 600 seconds, and it is signed with
the private key from the pem file under the RS256 scheme. -/
theorem c7_jwt (app_id pem : String) (time_now : Nat) :
    (create_github_jwt app_id time_now pem).claims.map Prod.fst = ["iat", "exp", "iss"] ∧
    (create_github_jwt app_id time_now pem).claims.lookup "iss" =
      some (JwtValue.str app_id) ∧
    (create_github_jwt app_id time_now pem).claims.lookup "iat" =
      some (JwtValue.nat time_now) ∧
    (create_github_jwt app_id time_now pem).claims.lookup "exp" =
      some (JwtValue.nat (time_now + 600)) ∧
    (create_github_jwt app_id time_now pem).algorithm = "RS256" ∧
    (create_github_jwt app_id time_now pem).signingKey = pem :=
  ⟨rfl, rfl, rfl, rfl, rfl, rfl⟩

/-- C8 counterexample: a non-2xx response does not always make the broker
fail — a 304 response whose JSON body carries a token is returned as success,
because raise_for_status raises only for statuses in 400..599.  (The single
POST per invocation does hold.) -/
theorem c8_counterexample :
    (get_github_access_token { statusCode := 304, tokenField := some "tok" }).result =
      Except.ok "tok" ∧
    (get_github_access_token { statusCode := 304, tokenField := some "tok" }).postsMade = 1 ∧
    ¬ (200 ≤ (304 : Nat) ∧ (304 : Nat) ≤ 299) :=
  ⟨rfl, rfl, by decide⟩

/-- C8 amended: the broker issues exactly one POST per invocation with no
retry of its own, and it fails whenever the token endpoint returns a 4xx or
5xx response (the statuses raise_for_status raises for). -/
theorem c8_amended (resp : HttpResponse) :
    (get_github_access_token resp).postsMade = 1 ∧
    (400 ≤ resp.statusCode → resp.statusCode < 600 →
      (get_github_access_token resp).result = Except.error PyError.httpError) := by
  refine ⟨rfl, fun h1 h2 => ?_⟩
  simp [get_github_access_token, raise_for_status, if_pos (And.intro h1 h2)]

/-- C8 witness: instantiating the amended theorem on a 401 response. -/
theorem c8_amended_witness :
    (get_github_access_token { statusCode := 401, tokenField := none }).postsMade = 1 ∧
    (get_github_access_token { statusCode := 401, tokenField := none }).result =
      Except.error PyError.httpError :=
  ⟨(c8_amended { statusCode := 401, tokenField := none }).1,
   (c8_amended { statusCode := 401, tokenField := none }).2 (by decide) (by decide)⟩

/-- C9 counterexample: a run that dies with an unrecovered error at token
minting still terminates with private.pem on disk — nothing in main deletes
it — refuting the claim that the key file does not persist after a fatal
exit. -/
theorem c9_counterexample :
    (runMain envC9).outcome = Except.error PyError.httpError ∧
    (runMain envC9).pemOnDisk = true :=
  ⟨rfl, rfl⟩

/-- C9 amended: in every run of main — fatal error or success — the private
key file private.pem written at line 138 persists when the process
terminates; no cleanup of it is ever performed. -/
theorem c9_amended_pem_persists (env : MainEnv) : (runMain env).pemOnDisk = true := by
  cases hres : (get_github_access_token env.tokenResp).result with
  | error e => simp [runMain, hres]
  | ok t =>
    cases hc : env.cloneOk with
    | true => simp [runMain, hres, hc]
    | false => simp [runMain, hres, hc]

/-- C10: the retried update always terminates within the attempt ceiling: for
every remote behaviour it makes at most 15 attempts, the ceiling 15 lies in
the stated 5..15 range, the fixed wait of 4 seconds between consecutive
attempts lies in the stated 3..10 range, and every attempt after the first is
preceded by exactly that fixed wait. -/
theorem c10_bounded_retry (env : RemoteEnv) (content : String) :
    (update_file env content).1.length ≤ update_file_stop_attempts ∧
    5 ≤ update_file_stop_attempts ∧ update_file_stop_attempts ≤ 15 ∧
    3 ≤ update_file_wait_seconds ∧ update_file_wait_seconds ≤ 10 ∧
    (∀ i a, (update_file env content).1[i]? = some a → 1 ≤ i →
      a.waitedBefore = update_file_wait_seconds) := by
  refine ⟨?_, by decide, by decide, by decide, by decide, ?_⟩
  · have h := retryGo_length env content (update_file_stop_attempts - 1) 1
    have e15 : update_file_stop_attempts - 1 + 1 = update_file_stop_attempts := by decide
    rw [← e15]
    exact h
  · intro i a h hi
    have h' : (retryGo env content 1 (update_file_stop_attempts - 1)).1[i]? = some a := h
    rw [retryGo_get env content (update_file_stop_attempts - 1) 1 i a h']
    show (if 1 + i = 1 then 0 else update_file_wait_seconds) = update_file_wait_seconds
    rw [if_neg (by omega)]

/-- C10 witness: in a run where every write conflicts, the trace stays within
the ceiling, and the second attempt was preceded by the fixed 4 second
wait. -/
theorem c10_bounded_retry_witness :
    (update_file envAlwaysConflict "key:new").1.length ≤ update_file_stop_attempts ∧
    (⟨2, true, 4, "sha", "key:new", Except.error GhError.conflict⟩ : Attempt).waitedBefore =
      update_file_wait_seconds :=
  ⟨(c10_bounded_retry envAlwaysConflict "key:new").1,
   (c10_bounded_retry envAlwaysConflict "key:new").2.2.2.2.2 1
     ⟨2, true, 4, "sha", "key:new", Except.error GhError.conflict⟩ (by rfl) (by decide)⟩

end ActionUpdateApp
